import Mathlib

namespace kml

/-- Model of a Go float64: NaN, signed infinity, or a finite value (as a rational). -/
inductive GFloat where
  | nan : GFloat
  | inf : Bool → GFloat
  | fin : ℚ → GFloat
deriving DecidableEq, Repr

/-- math.IsNaN -/
def GFloat.isNaN : GFloat → Bool
  | .nan => true
  | _ => false

/-- math.IsInf(x, 0): infinite of either sign. -/
def GFloat.isInf : GFloat → Bool
  | .inf _ => true
  | _ => false

/-- IEEE-754 strict less-than as used by the Go < operator (false on NaN). -/
def GFloat.lt : GFloat → GFloat → Bool
  | .nan, _ => false
  | _, .nan => false
  | .inf a, .inf b => !a && b
  | .inf a, .fin _ => !a
  | .fin _, .inf b => b
  | .fin p, .fin q => decide (p < q)

/-- IEEE-754 less-or-equal as used by the Go <= operator (false on NaN). -/
def GFloat.le : GFloat → GFloat → Bool
  | .nan, _ => false
  | _, .nan => false
  | .inf a, .inf b => (a == b) || (!a && b)
  | .inf a, .fin _ => !a
  | .fin _, .inf b => b
  | .fin p, .fin q => decide (p ≤ q)

/-- Go > operator. -/
def GFloat.gt (x y : GFloat) : Bool := GFloat.lt y x

/-- Go >= operator. -/
def GFloat.ge (x y : GFloat) : Bool := GFloat.le y x

/-- Left-pad a natural number's decimal form with zeros to 6 digits
(the fractional part of Go %f formatting). -/
def pad6 (n : Nat) : String :=
  let s := toString n
  String.mk (List.replicate (6 - s.length) '0') ++ s

/-- Go fmt %f formatting of a float64: six fractional digits; NaN and
infinities render as NaN, +Inf, -Inf. The magnitude is
floor(|q| * 10^6 + 1/2), i.e. rounding to six decimals with exact halves
going up (exact decimal halves are a measure-zero corner our rational
abstraction of float64 cannot distinguish). -/
def fmtF : GFloat → String
  | .nan => "NaN"
  | .inf true => "+Inf"
  | .inf false => "-Inf"
  | .fin q =>
    let n := (q.num.natAbs * 1000000 * 2 + q.den) / (2 * q.den)
    let sign := if q.num < 0 then "-" else ""
    sign ++ toString (n / 1000000) ++ "." ++ pad6 (n % 1000000)

/-- One lowercase hexadecimal digit. -/
def hexDigit (n : Nat) : Char :=
  if n < 10 then Char.ofNat (48 + n) else Char.ofNat (87 + n)

/-- Go %02x formatting of a byte value (two lowercase hex digits). -/
def hex2 (n : Nat) : String :=
  String.mk [hexDigit (n / 16), hexDigit (n % 16)]

/-- The Unicode White_Space property, as tested by Go unicode.IsSpace. -/
def goIsSpace (c : Char) : Bool :=
  c.toNat = 9 || c.toNat = 10 || c.toNat = 11 || c.toNat = 12 || c.toNat = 13 ||
  c.toNat = 32 || c.toNat = 133 || c.toNat = 160 || c.toNat = 0x1680 ||
  (0x2000 ≤ c.toNat && c.toNat ≤ 0x200A) || c.toNat = 0x2028 || c.toNat = 0x2029 ||
  c.toNat = 0x202F || c.toNat = 0x205F || c.toNat = 0x3000

/-- Go strings.TrimSpace: drop leading and trailing white space. -/
def goTrimSpace (s : String) : String :=
  String.mk (((s.data.dropWhile goIsSpace).reverse.dropWhile goIsSpace).reverse)

/-- Does the list n occur at the head of h? -/
def beginsWith : List Char → List Char → Bool
  | _, [] => true
  | [], _ :: _ => false
  | a :: as, b :: bs => a == b && beginsWith as bs

/-- Does the list n occur contiguously anywhere inside h? -/
def hasSub : List Char → List Char → Bool
  | [], n => n.isEmpty
  | a :: t, n => beginsWith (a :: t) n || hasSub t n

/-- Substring test on strings. -/
def strHasSub (h n : String) : Bool := hasSub h.data n.data

/-- Is c one of the sixteen lowercase hexadecimal digit characters? -/
def isHexLower (c : Char) : Bool :=
  (48 ≤ c.toNat && c.toNat ≤ 57) || (97 ≤ c.toNat && c.toNat ≤ 102)

/-- Style struct from kml.go: name, four uint8 color channels (modelled as
naturals below 256), icon URL, icon scale, and the int8 fill flag. -/
structure Style where
  name : String
  alpha : Nat
  red : Nat
  green : Nat
  blue : Nat
  iconURL : String
  iconScale : GFloat
  fill : Int
deriving DecidableEq, Repr

/-- NewStyle from kml.go: the literal initializer
Style(name, alpha, red, green, blue, pushpin-URL, 1.1, 1). The uint8
arguments are modelled as naturals reduced mod 256. -/
def NewStyle (name : String) (alpha red green blue : Nat) : Style :=
  Style.mk name (alpha % 256) (red % 256) (green % 256) (blue % 256)
    "http://maps.google.com/mapfiles/kml/pushpin/ylw-pushpin.png"
    (GFloat.fin (Rat.mk' 11 10)) 1

/-- Style.SetIconURL: trim the argument; ignore it when blank. -/
def SetIconURL (s : Style) (url : String) : Style :=
  let u := goTrimSpace url
  if u.length > 0 then
    Style.mk s.name s.alpha s.red s.green s.blue u s.iconScale s.fill
  else s

/-- Style.SetIconScale: store the argument only when 0.0 <= scale <= 100.0
under Go float comparison; otherwise keep the prior value. -/
def SetIconScale (s : Style) (scale : GFloat) : Style :=
  if scale.ge (GFloat.fin 0) && scale.le (GFloat.fin 100) then
    Style.mk s.name s.alpha s.red s.green s.blue s.iconURL scale s.fill
  else s

/-- Style.SetPolygonFill: store 1 for true, 0 for false. -/
def SetPolygonFill (s : Style) (fill : Bool) : Style :=
  if fill then
    Style.mk s.name s.alpha s.red s.green s.blue s.iconURL s.iconScale 1
  else
    Style.mk s.name s.alpha s.red s.green s.blue s.iconURL s.iconScale 0

/-- The color string built first in Style.render:
Sprintf of color tags around %02x%02x%02x%02x applied to alpha, blue,
green, red in that order. -/
def colorStrOf (s : Style) : String :=
  "<color>" ++ hex2 s.alpha ++ hex2 s.blue ++ hex2 s.green ++ hex2 s.red ++ "</color>\n"

/-- Style.render from kml.go, with the same color string reused in the
IconStyle, LineStyle and PolyStyle sections. -/
def Style.render (s : Style) : String :=
  let colorStr := colorStrOf s
  "<Style id=\"" ++ s.name ++ "\">\n" ++
  "<IconStyle>\n" ++
  colorStr ++
  "<scale>" ++ fmtF s.iconScale ++ "</scale>\n" ++
  "<Icon><href>" ++ s.iconURL ++ "</href></Icon>\n" ++
  "</IconStyle>\n" ++
  "<LineStyle>\n" ++
  colorStr ++
  "<width>3</width>\n" ++
  "</LineStyle>\n" ++
  "<PolyStyle>\n" ++
  colorStr ++
  "<colorMode>normal</colorMode>\n" ++
  "<fill>" ++ toString s.fill ++ "</fill>\n" ++
  "<outline>1</outline>\n" ++
  "</PolyStyle>\n" ++
  "</Style>\n"

/-- Point struct from kml.go: latitude, longitude, altitude. -/
structure Point where
  Lat : GFloat
  Lon : GFloat
  Alt : GFloat
deriving DecidableEq, Repr

/-- NewPoint from kml.go: reject NaN/Inf or out-of-range latitude, then
NaN/Inf or out-of-range longitude, in source order; coerce a NaN/Inf
altitude to 0; otherwise build the point. The Go (nil, error) and
(point, nil) returns are modelled as Except. -/
def NewPoint (lat lon alt : GFloat) : Except String Point :=
  if lat.isNaN || lat.isInf then .error "Lat is NaN or Inf."
  else if lat.gt (GFloat.fin 90) || lat.lt (GFloat.fin (-90)) then
    .error ("Invalid Lat: " ++ fmtF lat)
  else if lon.isNaN || lon.isInf then .error "Lon is NaN or Inf."
  else if lon.gt (GFloat.fin 180) || lon.lt (GFloat.fin (-180)) then
    .error ("Invalid Lon: " ++ fmtF lon)
  else
    .ok (Point.mk lat lon (if alt.isNaN || alt.isInf then GFloat.fin 0 else alt))

/-- Point.render from kml.go: longitude, then latitude, then altitude. -/
def Point.render (p : Point) : String :=
  "<Point>\n" ++
  "<extrude>0</extrude>\n" ++
  "<altitudeMode>clampToGround</altitudeMode>\n" ++
  "<coordinates>" ++ fmtF p.Lon ++ "," ++ fmtF p.Lat ++ "," ++ fmtF p.Alt ++
  "</coordinates>\n" ++
  "</Point>\n"

mutual

/-- Folder struct from kml.go: name, description, ordered features. -/
inductive Folder where
  | mk (name : String) (description : String) (features : List Feature)

/-- Placemark struct from kml.go: name, description, a geometry that is a
renderable interface value (None models a nil interface), and a style
reference. -/
inductive Placemark where
  | mk (name : String) (description : String) (geometry : Option Feature) (style : String)

/-- A value of the renderable interface: any of the four concrete types of
kml.go that implement render. -/
inductive Feature where
  | folder : Folder → Feature
  | placemark : Placemark → Feature
  | point : Point → Feature
  | style : Style → Feature

end

/-- Folder field accessor. -/
def Folder.name : Folder → String
  | .mk n _ _ => n

/-- Folder field accessor. -/
def Folder.description : Folder → String
  | .mk _ d _ => d

/-- Folder field accessor. -/
def Folder.features : Folder → List Feature
  | .mk _ _ fs => fs

/-- Placemark field accessor. -/
def Placemark.name : Placemark → String
  | .mk n _ _ _ => n

/-- Placemark field accessor. -/
def Placemark.description : Placemark → String
  | .mk _ d _ _ => d

/-- Placemark field accessor. -/
def Placemark.geometry : Placemark → Option Feature
  | .mk _ _ g _ => g

/-- Placemark field accessor. -/
def Placemark.style : Placemark → String
  | .mk _ _ _ s => s

/-- NewFolder from kml.go: empty feature list. -/
def NewFolder (name desc : String) : Folder := Folder.mk name desc []

/-- Folder.AddFeature: append unless the interface value is nil. -/
def Folder.AddFeature (f : Folder) (feature : Option Feature) : Folder :=
  match feature with
  | none => f
  | some ft => Folder.mk f.name f.description (f.features ++ [ft])

/-- NewPlacemark from kml.go: no validation of any argument; style starts
empty. -/
def NewPlacemark (name desc : String) (geom : Option Feature) : Placemark :=
  Placemark.mk name desc geom ""

/-- Placemark.SetStyle: trim the argument; ignore it when blank. -/
def SetStyle (pm : Placemark) (name : String) : Placemark :=
  let n := goTrimSpace name
  if n.length > 0 then Placemark.mk pm.name pm.description pm.geometry n
  else pm

mutual

/-- Folder.render from kml.go. A none result models a Go runtime panic
raised below (nil geometry dereference). -/
def Folder.render : Folder → Option String
  | .mk n d fs => do
    let body ← renderFeatures fs
    pure ("<Folder>\n" ++
      "<name>" ++ n ++ "</name>\n" ++
      "<description>" ++ d ++ "</description>\n" ++
      body ++
      "</Folder>\n")

/-- Placemark.render from kml.go: pm.geometry.render() panics when the
geometry interface is nil, modelled as none. -/
def Placemark.render : Placemark → Option String
  | .mk n d g st => do
    let gs ← (match g with
      | none => (none : Option String)
      | some f => Feature.render f)
    pure ("<Placemark>\n" ++
      "<name>" ++ n ++ "</name>\n" ++
      "<description>" ++ d ++ "</description>\n" ++
      "<visibility>1</visibility>\n" ++
      (if st.length > 0 then "<styleUrl>#" ++ st ++ "</styleUrl>\n" else "") ++
      gs ++
      "</Placemark>\n")

/-- Dynamic dispatch of the renderable interface. -/
def Feature.render : Feature → Option String
  | .folder f => Folder.render f
  | .placemark p => Placemark.render p
  | .point pt => some (Point.render pt)
  | .style s => some (Style.render s)

/-- The concatenation loop over a folder's features. -/
def renderFeatures : List Feature → Option String
  | [] => some ""
  | f :: rest => do
    let a ← Feature.render f
    let b ← renderFeatures rest
    pure (a ++ b)

end

/-- KML struct from kml.go: the ordered top-level folders. -/
structure KML where
  folders : List Folder

/-- NewKML from kml.go. -/
def NewKML : KML := KML.mk []

/-- KML.AddFolder: append unless the pointer is nil. -/
def KML.AddFolder (k : KML) (folder : Option Folder) : KML :=
  match folder with
  | none => k
  | some f => KML.mk (k.folders ++ [f])

/-- The concatenation loop over the document's folders. -/
def renderFolders : List Folder → Option String
  | [] => some ""
  | f :: rest => do
    let a ← Folder.render f
    let b ← renderFolders rest
    pure (a ++ b)

/-- KML.Render from kml.go: XML declaration, kml namespace element, the
folders in insertion order, closing tag. -/
def KML.Render (k : KML) : Option String := do
  let body ← renderFolders k.folders
  pure ("<?xml version=\"1.0\" encoding=\"UTF-8\"?>\n" ++
    "<kml xmlns=\"http://www.opengis.net/kml/2.2\">\n" ++
    body ++
    "</kml>\n")

/-- The style reference held by a placemark after a sequence of SetStyle
calls starting from the style s: each non-blank trimmed name overwrites. -/
def styleAfter (s : String) : List String → String
  | [] => s
  | n :: rest =>
    styleAfter (if (goTrimSpace n).length > 0 then goTrimSpace n else s) rest

/-- The disjunction of the two latitude rejection conditions of NewPoint. -/
def latInvalid (lat : GFloat) : Bool :=
  lat.isNaN || lat.isInf || lat.gt (GFloat.fin 90) || lat.lt (GFloat.fin (-90))

/-- The disjunction of the two longitude rejection conditions of NewPoint. -/
def lonInvalid (lon : GFloat) : Bool :=
  lon.isNaN || lon.isInf || lon.gt (GFloat.fin 180) || lon.lt (GFloat.fin (-180))

/-- The latitude error message NewPoint produces for an invalid latitude. -/
def latErrMsg (lat : GFloat) : String :=
  if lat.isNaN || lat.isInf then "Lat is NaN or Inf." else "Invalid Lat: " ++ fmtF lat

/-- The longitude error message NewPoint produces for an invalid longitude. -/
def lonErrMsg (lon : GFloat) : String :=
  if lon.isNaN || lon.isInf then "Lon is NaN or Inf." else "Invalid Lon: " ++ fmtF lon

/-- A concrete point used to instantiate universally quantified theorems. -/
def samplePoint : Point := Point.mk (GFloat.fin 10) (GFloat.fin 20) (GFloat.fin 0)

/-- A concrete style used to instantiate universally quantified theorems. -/
def sampleStyle : Style := NewStyle "sample" 10 20 30 40

theorem hex2_length (n : Nat) : (hex2 n).length = 2 := rfl

theorem beginsWith_self (l : List Char) : beginsWith l l = true := by
  induction l with
  | nil => rfl
  | cons a t ih => simp [beginsWith, ih]

theorem hasSub_append_self (x y : List Char) : hasSub (x ++ y) y = true := by
  induction x with
  | nil =>
    cases y with
    | nil => rfl
    | cons b bs => simp [hasSub, beginsWith_self]
  | cons a t ih => simp [hasSub, ih]

theorem strHasSub_append (s t : String) : strHasSub (s ++ t) t = true := by
  simpa [strHasSub, String.data_append] using hasSub_append_self s.data t.data

theorem foldl_setStyle (nm d : String) (g : Option Feature) (s : String)
    (names : List String) :
    List.foldl SetStyle (Placemark.mk nm d g s) names =
      Placemark.mk nm d g (styleAfter s names) := by
  induction names generalizing s with
  | nil => rfl
  | cons n rest ih =>
    by_cases h : (goTrimSpace n).length > 0
    · simp [List.foldl, SetStyle, styleAfter, h, Placemark.name, Placemark.description,
        Placemark.geometry, ih]
    · simp [List.foldl, SetStyle, styleAfter, h, ih]

theorem styleAfter_pos (s : String) (names : List String) :
    (styleAfter s names).length > 0 ↔
      (s.length > 0 ∨ ∃ n ∈ names, (goTrimSpace n).length > 0) := by
  induction names generalizing s with
  | nil => simp [styleAfter]
  | cons n rest ih =>
    by_cases h : (goTrimSpace n).length > 0
    · simp [styleAfter, h, ih]
    · simp [styleAfter, h, ih]

theorem styleAfter_source (s : String) (names : List String) :
    styleAfter s names = s ∨ ∃ n ∈ names, styleAfter s names = goTrimSpace n := by
  induction names generalizing s with
  | nil => left; rfl
  | cons n rest ih =>
    by_cases h : (goTrimSpace n).length > 0
    · rcases ih (goTrimSpace n) with h1 | ⟨m, hm, he⟩
      · right
        exact ⟨n, List.mem_cons_self n rest, by simp [styleAfter, h, h1]⟩
      · right
        exact ⟨m, List.mem_cons_of_mem n hm, by simp [styleAfter, h, he]⟩
    · rcases ih s with h1 | ⟨m, hm, he⟩
      · left
        simp [styleAfter, h, h1]
      · right
        exact ⟨m, List.mem_cons_of_mem n hm, by simp [styleAfter, h, he]⟩

/-- Claim C1: the claim (and the SetPolygonFill doc comment) say a freshly
constructed Style has fill = 0 and renders fill-tag 0; the code initializes
fill to 1, so the render output of an untouched NewStyle contains the
fill-tag 1 and not the fill-tag 0. This theorem evaluates the code at the
failing input. -/
theorem newStyle_fill_defaults_one :
    (NewStyle "s" 255 1 2 3).fill = 1 ∧
    strHasSub (Style.render (NewStyle "s" 255 1 2 3)) "<fill>1</fill>" = true ∧
    strHasSub (Style.render (NewStyle "s" 255 1 2 3)) "<fill>0</fill>" = false ∧
    (SetPolygonFill (NewStyle "s" 255 1 2 3) true).fill = 1 ∧
    (SetPolygonFill (NewStyle "s" 255 1 2 3) false).fill = 0 := by
  refine ⟨rfl, ?_, ?_, rfl, rfl⟩
  · set_option maxRecDepth 4000 in decide
  · set_option maxRecDepth 4000 in decide

/-- Claim C8: adding a nil folder to a KML document or a nil feature to a
Folder leaves the parent's ordered child sequence unchanged, while adding a
non-nil child appends it at the end, keeping every other field and the
order of earlier children. -/
theorem addFolder_addFeature_nil (k : KML) (f : Folder) (fd : Folder) (ft : Feature) :
    KML.AddFolder k none = k ∧
    (KML.AddFolder k (some f)).folders = k.folders ++ [f] ∧
    Folder.AddFeature fd none = fd ∧
    (Folder.AddFeature fd (some ft)).name = fd.name ∧
    (Folder.AddFeature fd (some ft)).description = fd.description ∧
    (Folder.AddFeature fd (some ft)).features = fd.features ++ [ft] := by
  refine ⟨?_, rfl, rfl, ?_, ?_, ?_⟩
  · cases k
    rfl
  · cases fd
    rfl
  · cases fd
    rfl
  · cases fd
    rfl

/-- Claim C9: render on every node kind is a pure function of the node's
current field state: documents with equal field state render identically,
and repeated rendering of the same unmutated value yields the identical
string (the embedding is a function, mirroring that the Go render methods
only read fields and never write them). -/
theorem render_deterministic (k k2 : KML) (f : Folder) (p : Placemark) (s : Style)
    (pt : Point) (h : k.folders = k2.folders) :
    KML.Render k = KML.Render k2 ∧
    KML.Render k = KML.Render k ∧
    Folder.render f = Folder.render f ∧
    Placemark.render p = Placemark.render p ∧
    Style.render s = Style.render s ∧
    Point.render pt = Point.render pt := by
  refine ⟨?_, rfl, rfl, rfl, rfl, rfl⟩
  cases k with
  | mk l =>
    cases k2 with
    | mk l2 =>
      simp only at h
      subst h
      rfl

/-- Witness for render_deterministic at a concrete one-folder document. -/
theorem render_deterministic_witness :
    KML.Render (KML.AddFolder NewKML (some (NewFolder "f" "d"))) =
      KML.Render (KML.mk [NewFolder "f" "d"]) ∧
    KML.Render (KML.AddFolder NewKML (some (NewFolder "f" "d"))) =
      KML.Render (KML.AddFolder NewKML (some (NewFolder "f" "d"))) ∧
    Folder.render (NewFolder "f" "d") = Folder.render (NewFolder "f" "d") ∧
    Placemark.render (NewPlacemark "n" "d" (some (Feature.point samplePoint))) =
      Placemark.render (NewPlacemark "n" "d" (some (Feature.point samplePoint))) ∧
    Style.render sampleStyle = Style.render sampleStyle ∧
    Point.render samplePoint = Point.render samplePoint :=
  render_deterministic (KML.AddFolder NewKML (some (NewFolder "f" "d")))
    (KML.mk [NewFolder "f" "d"]) (NewFolder "f" "d")
    (NewPlacemark "n" "d" (some (Feature.point samplePoint))) sampleStyle samplePoint rfl

/-- Claim C10: NewPlacemark stores its arguments with no validation (a nil
geometry is accepted as-is), and Placemark.render dereferences the geometry
unconditionally: with a nil geometry it crashes (modelled as none), while
with any renderable geometry it produces the full placemark fragment. -/
theorem placemark_nil_geometry (nm d : String) (g : Option Feature) (gf : Feature)
    (gs : String) (hg : Feature.render gf = some gs) :
    NewPlacemark nm d g = Placemark.mk nm d g "" ∧
    Placemark.render (NewPlacemark nm d none) = none ∧
    Placemark.render (NewPlacemark nm d (some gf)) =
      some ("<Placemark>\n" ++
        "<name>" ++ nm ++ "</name>\n" ++
        "<description>" ++ d ++ "</description>\n" ++
        "<visibility>1</visibility>\n" ++
        gs ++
        "</Placemark>\n") := by
  refine ⟨rfl, rfl, ?_⟩
  simp [NewPlacemark, Placemark.render, hg]

/-- Witness for placemark_nil_geometry at a concrete point geometry. -/
theorem placemark_nil_geometry_witness :
    Placemark.render (NewPlacemark "n" "d" none) = none ∧
    Placemark.render (NewPlacemark "n" "d" (some (Feature.point samplePoint))) =
      some ("<Placemark>\n" ++
        "<name>" ++ "n" ++ "</name>\n" ++
        "<description>" ++ "d" ++ "</description>\n" ++
        "<visibility>1</visibility>\n" ++
        Point.render samplePoint ++
        "</Placemark>\n") :=
  ⟨(placemark_nil_geometry "n" "d" none (Feature.point samplePoint)
      (Point.render samplePoint) rfl).2.1,
   (placemark_nil_geometry "n" "d" none (Feature.point samplePoint)
      (Point.render samplePoint) rfl).2.2⟩

/-- Counterexample to claim C2 as stated: for longitude 181 with the invalid
latitude 91, NewPoint reports the latitude error, not a longitude-specific
one (its message does not even mention Lon), because the latitude checks run
first. -/
theorem newPoint_both_invalid_cex :
    NewPoint (GFloat.fin 91) (GFloat.fin 181) (GFloat.fin 0) =
      Except.error "Invalid Lat: 91.000000" ∧
    strHasSub "Invalid Lat: 91.000000" "Lon" = false := by
  exact ⟨rfl, rfl⟩

/-- Claim C2 (amended): an invalid latitude (NaN, Inf, or out of [-90,90])
always produces the latitude-specific error regardless of the longitude,
because latitude is checked first; an invalid longitude produces the
longitude-specific error only when the latitude is valid. -/
theorem newPoint_error_precedence (lat lon alt : GFloat) :
    (latInvalid lat = true → NewPoint lat lon alt = Except.error (latErrMsg lat)) ∧
    (latInvalid lat = false → lonInvalid lon = true →
      NewPoint lat lon alt = Except.error (lonErrMsg lon)) := by
  constructor
  · intro h
    unfold NewPoint latErrMsg
    cases hn : (lat.isNaN || lat.isInf) with
    | true => simp [hn]
    | false =>
      have hnn := Bool.or_eq_false_iff.mp hn
      have h2 : (lat.gt (GFloat.fin 90) || lat.lt (GFloat.fin (-90))) = true := by
        unfold latInvalid at h
        rw [hnn.1, hnn.2] at h
        simpa using h
      simp [hn, h2]
  · intro h hl
    have h4 : lat.isNaN = false ∧ lat.isInf = false ∧
        lat.gt (GFloat.fin 90) = false ∧ lat.lt (GFloat.fin (-90)) = false := by
      unfold latInvalid at h
      simp at h
      exact ⟨h.1.1.1, h.1.1.2, h.1.2, h.2⟩
    unfold NewPoint lonErrMsg
    cases hn : (lon.isNaN || lon.isInf) with
    | true => simp [h4.1, h4.2.1, h4.2.2.1, h4.2.2.2, hn]
    | false =>
      have hnn := Bool.or_eq_false_iff.mp hn
      have h2 : (lon.gt (GFloat.fin 180) || lon.lt (GFloat.fin (-180))) = true := by
        unfold lonInvalid at hl
        rw [hnn.1, hnn.2] at hl
        simpa using hl
      simp [h4.1, h4.2.1, h4.2.2.1, h4.2.2.2, hn, h2]

/-- Witness for newPoint_error_precedence: latitude 91 beats the infinite
longitude; longitude 181 is reported when the latitude 0 is valid. -/
theorem newPoint_error_precedence_witness :
    NewPoint (GFloat.fin 91) (GFloat.inf true) (GFloat.fin 0) =
      Except.error (latErrMsg (GFloat.fin 91)) ∧
    NewPoint (GFloat.fin 0) (GFloat.fin 181) (GFloat.fin 0) =
      Except.error (lonErrMsg (GFloat.fin 181)) :=
  ⟨(newPoint_error_precedence (GFloat.fin 91) (GFloat.inf true) (GFloat.fin 0)).1
      (by decide),
   (newPoint_error_precedence (GFloat.fin 0) (GFloat.fin 181) (GFloat.fin 0)).2
      (by decide) (by decide)⟩

/-- Counterexample to claim C3 as stated: for the invalid latitude +Inf the
returned error is the fixed text Lat-is-NaN-or-Inf, which does not contain
the offending value (+Inf as Go formats it), so not every invalid latitude
input yields an error carrying that value. -/
theorem newPoint_inf_error_lacks_value_cex :
    NewPoint (GFloat.inf true) (GFloat.fin 0) (GFloat.fin 0) =
      Except.error "Lat is NaN or Inf." ∧
    fmtF (GFloat.inf true) = "+Inf" ∧
    strHasSub "Lat is NaN or Inf." (fmtF (GFloat.inf true)) = false := by
  exact ⟨rfl, rfl, rfl⟩

/-- Claim C3 (amended): whenever NewPoint rejects a coordinate it returns an
error and no point; for a finite out-of-range latitude or longitude the
error message embeds the offending value (in Go %f form), while for a NaN
or infinite coordinate the message is a fixed text that does not carry the
value. -/
theorem newPoint_error_carries_value (lat lon alt : GFloat) :
    ((lat.isNaN || lat.isInf) = true →
      NewPoint lat lon alt = Except.error "Lat is NaN or Inf.") ∧
    ((lat.isNaN || lat.isInf) = false →
      (lat.gt (GFloat.fin 90) || lat.lt (GFloat.fin (-90))) = true →
      NewPoint lat lon alt = Except.error ("Invalid Lat: " ++ fmtF lat) ∧
      strHasSub ("Invalid Lat: " ++ fmtF lat) (fmtF lat) = true) ∧
    (latInvalid lat = false → (lon.isNaN || lon.isInf) = true →
      NewPoint lat lon alt = Except.error "Lon is NaN or Inf.") ∧
    (latInvalid lat = false → (lon.isNaN || lon.isInf) = false →
      (lon.gt (GFloat.fin 180) || lon.lt (GFloat.fin (-180))) = true →
      NewPoint lat lon alt = Except.error ("Invalid Lon: " ++ fmtF lon) ∧
      strHasSub ("Invalid Lon: " ++ fmtF lon) (fmtF lon) = true) := by
  have hlat : latInvalid lat = false →
      lat.isNaN = false ∧ lat.isInf = false ∧
      lat.gt (GFloat.fin 90) = false ∧ lat.lt (GFloat.fin (-90)) = false := by
    intro h
    unfold latInvalid at h
    simp at h
    exact ⟨h.1.1.1, h.1.1.2, h.1.2, h.2⟩
  refine ⟨?_, ?_, ?_, ?_⟩
  · intro h
    unfold NewPoint
    simp [h]
  · intro h1 h2
    unfold NewPoint
    refine ⟨by simp [h1, h2], strHasSub_append _ _⟩
  · intro h hn
    obtain ⟨e1, e2, e3, e4⟩ := hlat h
    unfold NewPoint
    simp [e1, e2, e3, e4, hn]
  · intro h hn hr
    obtain ⟨e1, e2, e3, e4⟩ := hlat h
    unfold NewPoint
    refine ⟨by simp [e1, e2, e3, e4, hn, hr], strHasSub_append _ _⟩

/-- Witness for newPoint_error_carries_value: all four error branches at
concrete inputs - NaN latitude, latitude 91, -Inf longitude, longitude
-181. -/
theorem newPoint_error_carries_value_witness :
    NewPoint GFloat.nan (GFloat.fin 0) (GFloat.fin 0) =
      Except.error "Lat is NaN or Inf." ∧
    (NewPoint (GFloat.fin 91) (GFloat.fin 0) (GFloat.fin 0) =
      Except.error ("Invalid Lat: " ++ fmtF (GFloat.fin 91)) ∧
      strHasSub ("Invalid Lat: " ++ fmtF (GFloat.fin 91)) (fmtF (GFloat.fin 91)) = true) ∧
    NewPoint (GFloat.fin 0) (GFloat.inf false) (GFloat.fin 0) =
      Except.error "Lon is NaN or Inf." ∧
    (NewPoint (GFloat.fin 0) (GFloat.fin (-181)) (GFloat.fin 0) =
      Except.error ("Invalid Lon: " ++ fmtF (GFloat.fin (-181))) ∧
      strHasSub ("Invalid Lon: " ++ fmtF (GFloat.fin (-181)))
        (fmtF (GFloat.fin (-181))) = true) :=
  ⟨(newPoint_error_carries_value GFloat.nan (GFloat.fin 0) (GFloat.fin 0)).1 rfl,
   (newPoint_error_carries_value (GFloat.fin 91) (GFloat.fin 0) (GFloat.fin 0)).2.1
      rfl (by decide),
   (newPoint_error_carries_value (GFloat.fin 0) (GFloat.inf false) (GFloat.fin 0)).2.2.1
      (by decide) rfl,
   (newPoint_error_carries_value (GFloat.fin 0) (GFloat.fin (-181)) (GFloat.fin 0)).2.2.2
      (by decide) rfl (by decide)⟩

/-- Claim C4: for every finite latitude in [-90,90], finite longitude in
[-180,180] and any altitude, NewPoint succeeds; a NaN or infinite altitude
is stored as 0; and the point renders its coordinates as
longitude, latitude, altitude with the clampToGround altitude mode. -/
theorem newPoint_valid_render (qlat qlon : ℚ) (alt : GFloat)
    (h1 : -90 ≤ qlat) (h2 : qlat ≤ 90) (h3 : -180 ≤ qlon) (h4 : qlon ≤ 180) :
    NewPoint (GFloat.fin qlat) (GFloat.fin qlon) alt =
      Except.ok (Point.mk (GFloat.fin qlat) (GFloat.fin qlon)
        (if alt.isNaN || alt.isInf then GFloat.fin 0 else alt)) ∧
    Point.render (Point.mk (GFloat.fin qlat) (GFloat.fin qlon)
        (if alt.isNaN || alt.isInf then GFloat.fin 0 else alt)) =
      "<Point>\n" ++
      "<extrude>0</extrude>\n" ++
      "<altitudeMode>clampToGround</altitudeMode>\n" ++
      "<coordinates>" ++ fmtF (GFloat.fin qlon) ++ "," ++ fmtF (GFloat.fin qlat) ++ "," ++
      fmtF (if alt.isNaN || alt.isInf then GFloat.fin 0 else alt) ++
      "</coordinates>\n" ++
      "</Point>\n" := by
  constructor
  · have c2 : ((GFloat.fin qlat).gt (GFloat.fin 90) ||
        (GFloat.fin qlat).lt (GFloat.fin (-90))) = false := by
      simp [GFloat.gt, GFloat.lt, not_lt]
      exact ⟨h2, h1⟩
    have c4 : ((GFloat.fin qlon).gt (GFloat.fin 180) ||
        (GFloat.fin qlon).lt (GFloat.fin (-180))) = false := by
      simp [GFloat.gt, GFloat.lt, not_lt]
      exact ⟨h4, h3⟩
    unfold NewPoint
    simp [GFloat.isNaN, GFloat.isInf, c2, c4]
  · rfl

/-- Witness for newPoint_valid_render at latitude 10, longitude 20, NaN
altitude. -/
theorem newPoint_valid_render_witness :
    NewPoint (GFloat.fin 10) (GFloat.fin 20) GFloat.nan =
      Except.ok (Point.mk (GFloat.fin 10) (GFloat.fin 20)
        (if GFloat.nan.isNaN || GFloat.nan.isInf then GFloat.fin 0 else GFloat.nan)) ∧
    Point.render (Point.mk (GFloat.fin 10) (GFloat.fin 20)
        (if GFloat.nan.isNaN || GFloat.nan.isInf then GFloat.fin 0 else GFloat.nan)) =
      "<Point>\n" ++
      "<extrude>0</extrude>\n" ++
      "<altitudeMode>clampToGround</altitudeMode>\n" ++
      "<coordinates>" ++ fmtF (GFloat.fin 20) ++ "," ++ fmtF (GFloat.fin 10) ++ "," ++
      fmtF (if GFloat.nan.isNaN || GFloat.nan.isInf then GFloat.fin 0 else GFloat.nan) ++
      "</coordinates>\n" ++
      "</Point>\n" :=
  newPoint_valid_render 10 20 GFloat.nan (by norm_num) (by norm_num) (by norm_num)
    (by norm_num)

/-- Claim C5: SetIconScale stores the new scale exactly for arguments in
the closed interval [0,100] (changing no other field), and leaves the
whole Style unchanged for any finite argument outside that interval as
well as for NaN and the infinities, surfacing no error. -/
theorem setIconScale_validate_and_ignore (s : Style) (q r : ℚ) :
    (0 ≤ q → q ≤ 100 →
      SetIconScale s (GFloat.fin q) =
        Style.mk s.name s.alpha s.red s.green s.blue s.iconURL (GFloat.fin q) s.fill) ∧
    (¬ (0 ≤ r ∧ r ≤ 100) → SetIconScale s (GFloat.fin r) = s) ∧
    SetIconScale s GFloat.nan = s ∧
    SetIconScale s (GFloat.inf true) = s ∧
    SetIconScale s (GFloat.inf false) = s := by
  refine ⟨?_, ?_, rfl, rfl, rfl⟩
  · intro hq1 hq2
    simp [SetIconScale, GFloat.ge, GFloat.le, hq1, hq2]
  · intro h
    rcases not_and_or.mp h with hr | hr
    · simp [SetIconScale, GFloat.ge, GFloat.le, hr]
    · simp [SetIconScale, GFloat.ge, GFloat.le, hr]

/-- Witness for setIconScale_validate_and_ignore: boundary value 100 is
accepted, -0.1 is ignored, NaN is ignored. -/
theorem setIconScale_validate_and_ignore_witness :
    SetIconScale sampleStyle (GFloat.fin 100) =
      Style.mk sampleStyle.name sampleStyle.alpha sampleStyle.red sampleStyle.green
        sampleStyle.blue sampleStyle.iconURL (GFloat.fin 100) sampleStyle.fill ∧
    SetIconScale sampleStyle (GFloat.fin (Rat.mk' (-1) 10)) = sampleStyle ∧
    SetIconScale sampleStyle GFloat.nan = sampleStyle :=
  ⟨(setIconScale_validate_and_ignore sampleStyle 100 (Rat.mk' (-1) 10)).1
      (by norm_num) (by norm_num),
   (setIconScale_validate_and_ignore sampleStyle 100 (Rat.mk' (-1) 10)).2.1
      (by intro hc; exact absurd hc.1 (by decide)),
   (setIconScale_validate_and_ignore sampleStyle 100 (Rat.mk' (-1) 10)).2.2.1⟩

/-- Claim C6: Style.render builds a single color string of eight lowercase
hex digits in alpha-blue-green-red order and embeds that identical string
in the IconStyle, LineStyle and PolyStyle sections; for alpha 255, red 1,
green 2, blue 3 the digits are ff030201. -/
theorem style_render_color (s : Style) (ha : s.alpha < 256) (hr : s.red < 256)
    (hg : s.green < 256) (hb : s.blue < 256) :
    colorStrOf s =
      "<color>" ++ (hex2 s.alpha ++ hex2 s.blue ++ hex2 s.green ++ hex2 s.red) ++
        "</color>\n" ∧
    (hex2 s.alpha ++ hex2 s.blue ++ hex2 s.green ++ hex2 s.red).length = 8 ∧
    (∀ c ∈ (hex2 s.alpha ++ hex2 s.blue ++ hex2 s.green ++ hex2 s.red).data,
      isHexLower c = true) ∧
    Style.render s =
      "<Style id=\"" ++ s.name ++ "\">\n" ++
      "<IconStyle>\n" ++
      colorStrOf s ++
      "<scale>" ++ fmtF s.iconScale ++ "</scale>\n" ++
      "<Icon><href>" ++ s.iconURL ++ "</href></Icon>\n" ++
      "</IconStyle>\n" ++
      "<LineStyle>\n" ++
      colorStrOf s ++
      "<width>3</width>\n" ++
      "</LineStyle>\n" ++
      "<PolyStyle>\n" ++
      colorStrOf s ++
      "<colorMode>normal</colorMode>\n" ++
      "<fill>" ++ toString s.fill ++ "</fill>\n" ++
      "<outline>1</outline>\n" ++
      "</PolyStyle>\n" ++
      "</Style>\n" ∧
    colorStrOf (NewStyle "x" 255 1 2 3) = "<color>ff030201</color>\n" := by
  refine ⟨by simp [colorStrOf, String.append_assoc], ?_, ?_, rfl, by decide⟩
  · simp [String.length_append, hex2_length]
  · intro c hc
    have h16 : ∀ k : Nat, k < 16 → isHexLower (hexDigit k) = true := by decide
    simp [hex2, String.data_append, String.mk] at hc
    rcases hc with rfl | rfl | rfl | rfl | rfl | rfl | rfl | rfl <;>
      exact h16 _ (by omega)

/-- Witness for style_render_color at the style of the claim's concrete
instance (alpha 255, red 1, green 2, blue 3). -/
theorem style_render_color_witness :
    (hex2 (NewStyle "x" 255 1 2 3).alpha ++ hex2 (NewStyle "x" 255 1 2 3).blue ++
      hex2 (NewStyle "x" 255 1 2 3).green ++ hex2 (NewStyle "x" 255 1 2 3).red).length = 8 ∧
    colorStrOf (NewStyle "x" 255 1 2 3) = "<color>ff030201</color>\n" :=
  ⟨(style_render_color (NewStyle "x" 255 1 2 3) (by decide) (by decide) (by decide)
      (by decide)).2.1,
   (style_render_color (NewStyle "x" 255 1 2 3) (by decide) (by decide) (by decide)
      (by decide)).2.2.2.2⟩

/-- Claim C7: a placemark built by NewPlacemark and any sequence of SetStyle
calls renders its name, description, the fixed visibility flag 1, a
style-URL line referencing the stored style exactly when some call passed a
name that is non-blank after trimming (omitted entirely otherwise), then
the geometry fragment and the closing tag; the stored style is always the
trimmed form of one of the passed names. -/
theorem placemark_render_styleUrl (nm d : String) (gf : Feature) (gs : String)
    (names : List String) (hgeo : Feature.render gf = some gs) :
    Placemark.render (List.foldl SetStyle (NewPlacemark nm d (some gf)) names) =
      some ("<Placemark>\n" ++
        "<name>" ++ nm ++ "</name>\n" ++
        "<description>" ++ d ++ "</description>\n" ++
        "<visibility>1</visibility>\n" ++
        (if (styleAfter "" names).length > 0 then
          "<styleUrl>#" ++ styleAfter "" names ++ "</styleUrl>\n"
         else "") ++
        gs ++
        "</Placemark>\n") ∧
    ((styleAfter "" names).length > 0 ↔ ∃ n ∈ names, (goTrimSpace n).length > 0) ∧
    ((styleAfter "" names).length > 0 →
      ∃ n ∈ names, styleAfter "" names = goTrimSpace n) := by
  refine ⟨?_, ?_, ?_⟩
  · have he : NewPlacemark nm d (some gf) = Placemark.mk nm d (some gf) "" := rfl
    rw [he, foldl_setStyle]
    simp [Placemark.render, hgeo]
  · have := styleAfter_pos "" names
    simpa using this
  · intro h
    rcases styleAfter_source "" names with h1 | h2
    · rw [h1] at h
      simp at h
    · exact h2

/-- Witness for placemark_render_styleUrl: a blank SetStyle call is a no-op
and a later non-blank call stores the trimmed name rendered behind the hash
mark. -/
theorem placemark_render_styleUrl_witness :
    Placemark.render (List.foldl SetStyle (NewPlacemark "n" "d"
        (some (Feature.point samplePoint))) [" ", " myStyle "]) =
      some ("<Placemark>\n" ++
        "<name>" ++ "n" ++ "</name>\n" ++
        "<description>" ++ "d" ++ "</description>\n" ++
        "<visibility>1</visibility>\n" ++
        (if (styleAfter "" [" ", " myStyle "]).length > 0 then
          "<styleUrl>#" ++ styleAfter "" [" ", " myStyle "] ++ "</styleUrl>\n"
         else "") ++
        Point.render samplePoint ++
        "</Placemark>\n") :=
  (placemark_render_styleUrl "n" "d" (Feature.point samplePoint)
    (Point.render samplePoint) [" ", " myStyle "] rfl).1

end kml

